import Mathlib

/-!
# Verification of the `electron-ipc-socket` protocol engine

Shallow embedding of `src/socket.ts` (the `Socket` protocol engine) and of
the `Transport` adapter, together with proofs about the behaviour that the
specification describes: lifecycle (open/close), the pending-request table,
the timeout sweep, inbound request/response handling, response encoding,
once-subscriptions and transport subscription bookkeeping.

JavaScript values that flow through the socket (payloads, error objects,
wire arguments) are modelled by the inductive type `Val`; effects (transport
sends, bus emissions, promise settlements, interval control) are recorded as
an explicit list of `Action`s in the order the code performs them.
-/

namespace IpcSocket

/-- A JavaScript value as it appears on the wire / in the socket internals.
Error objects are represented structurally: the error classes
(`ConnectionLostError`, `TimeoutError`, `NotFoundError`,
`UnhandledExceptionError` and plain `Error`) live in `src/errors/*`, which is
not part of the sources; their shape is modelled from the spec's error
taxonomy (§7): `NotFound` carries the request path as its identifying field,
`UnhandledException` wraps the causing value. -/
inductive Val where
  | undefined : Val
  | null : Val
  | bool (b : Bool) : Val
  | num (n : Int) : Val
  | str (s : String) : Val
  | errConnectionLost : Val
  | errTimeout : Val
  | errNotFound (path : String) : Val
  | errUnhandledException (cause : Val) : Val
  | errGeneric (msg : String) : Val
  deriving DecidableEq, Repr

/-- JavaScript truthiness of a `Val` (used by `if (err)`, `err ? _ : _`). -/
def Val.truthy : Val → Bool
  | .undefined => false
  | .null => false
  | .bool b => b
  | .num n => n != 0
  | .str s => s != ""
  | .errConnectionLost => true
  | .errTimeout => true
  | .errNotFound _ => true
  | .errUnhandledException _ => true
  | .errGeneric _ => true

/-- The `is-error` predicate: true exactly on error objects. -/
def Val.isError : Val → Bool
  | .errConnectionLost => true
  | .errTimeout => true
  | .errNotFound _ => true
  | .errUnhandledException _ => true
  | .errGeneric _ => true
  | _ => false

/-- Modelled from the spec: the `message` property of the error classes in
`src/errors/*` (files not under `src/`); the exact message texts are chosen
representatives, only `errGeneric` (plain `new Error(msg)`) is forced. -/
def Val.message : Val → String
  | .errConnectionLost => "Connection has been lost"
  | .errTimeout => "Request timeout"
  | .errNotFound path => "Handler not found: " ++ path
  | .errUnhandledException _ => "Unhandled exception"
  | .errGeneric msg => msg
  | _ => ""

/-- JavaScript `toString()` on a value (used by `new Error(err.toString())`
in `__handleResponse` for truthy non-error values). -/
def Val.jsToString : Val → String
  | .undefined => "undefined"
  | .null => "null"
  | .bool b => if b then "true" else "false"
  | .num n => toString n
  | .str s => s
  | e => "Error: " ++ e.message

/-- The immutable event value `{name, payload}` from `src/event.ts`
(not under `src/`). Modelled from the spec: "immutable record
{name, optional payload}". -/
structure Event where
  name : String
  payload : Val
  deriving DecidableEq, Repr

/-- Modelled from the spec: an `OutboundRequest` (`src/outbound-request.ts`
is not under `src/`): correlation id, creation timestamp, and a
settled/disposed flag — "settles at most once; settling after disposal is a
silent no-op". Its resolve/reject callbacks are represented by the
`settleResolve`/`settleReject` actions the socket emits. -/
structure OutboundRequest where
  id : String
  timestamp : Nat
  settled : Bool
  deriving DecidableEq, Repr

/-- An observable effect of a socket operation, in program order:
transport subscriptions/sends, internal-bus emissions, promise settlements
of outbound requests, and sweep-interval control. `deferredBusError` is the
`setTimeout`-deferred republication of an error on the `error` lifecycle
channel (it fires on a later turn, after the actions listed before it). -/
inductive Action where
  | transportSub (channel : String) : Action
  | transportUnsub (channel : String) : Action
  | transportSend (channel : String) (args : List Val) : Action
  | busEmit (key : String) (evt : Event) : Action
  | busEmitRequest (key : String) (id : String) (path : String) (payload : Val) : Action
  | settleResolve (id : String) (v : Val) : Action
  | settleReject (id : String) (e : Val) : Action
  | intervalStart : Action
  | intervalStop : Action
  | deferredBusError (e : Val) : Action
  deriving DecidableEq, Repr

/-- Errors thrown synchronously by the socket's public methods
(`assert`/`requires` from `src/utils/assertions.ts`, modelled from the
spec's taxonomy: AlreadyOpen, AlreadyClosed, RequiredArgument). -/
inductive SocketFailure where
  | socketOpen : SocketFailure
  | socketClosed : SocketFailure
  | required (name : String) : SocketFailure
  deriving DecidableEq, Repr

/-- Constructor settings `{timeout?, cleanup?}`; `none` is an absent
(`undefined`) option. -/
structure Settings where
  timeout : Option Nat := none
  cleanup : Option Nat := none
  deriving DecidableEq, Repr

/-- JavaScript `v || d` for an optional numeric option: an absent value and
the falsy number `0` both fall back to the default. -/
def jsOrDefault (v : Option Nat) (d : Nat) : Nat :=
  match v with
  | none => d
  | some n => if n = 0 then d else n

/-- The mutable state of a `Socket` instance: `__isOpen`, `__channel`,
`__requestTimeout`, the sweep interval's period, `__pendingRequests`
(an insertion-ordered table, `none` when the field is `undefined`) and
`__subscriptions` (the channels of the transport subscriptions held,
`none` when the field is `undefined`). -/
structure SocketState where
  isOpen : Bool
  channel : Option String
  requestTimeout : Nat
  sweepInterval : Nat
  pendingRequests : Option (List (String × OutboundRequest))
  subscriptions : Option (List String)
  deriving DecidableEq, Repr

/-- `Socket` constructor: closed, no channel, `timeout || 60000` as the
request timeout and `cleanup || 60000` as the sweep period; the pending
table and subscription list are not yet created. -/
def Socket.construct (settings : Settings) : SocketState :=
  { isOpen := false
  , channel := none
  , requestTimeout := jsOrDefault settings.timeout (1000 * 60)
  , sweepInterval := jsOrDefault settings.cleanup (1000 * 60)
  , pendingRequests := none
  , subscriptions := none }

/-- JavaScript template interpolation of the `__channel` field
(`undefined` stringifies to "undefined"). -/
def chanStr (s : SocketState) : String :=
  match s.channel with
  | some c => c
  | none => "undefined"

/-- Bus key prefix for user events (`BUS_EVENTS` in the source is a random
string fixed at module load; its exact value is irrelevant). -/
def BUS_EVENTS : String := "bus-events"

/-- Bus key prefix for request handlers (`BUS_REQUESTS` in the source). -/
def BUS_REQUESTS : String := "bus-requests"

/-- `Socket.open(channel)`: fails with AlreadyOpen if open; otherwise
subscribes the three sub-channels, sets `isOpen`, binds the channel,
creates an empty pending table, starts the sweep and emits `open`. -/
def Socket.openSocket (s : SocketState) (channel : String) :
    Except SocketFailure (SocketState × List Action) :=
  if s.isOpen then .error .socketOpen
  else
    .ok ({ s with
            isOpen := true
          , channel := some channel
          , pendingRequests := some []
          , subscriptions := some
              [channel ++ ":events", channel ++ ":requests", channel ++ ":responses"] },
        [ .transportSub (channel ++ ":events")
        , .transportSub (channel ++ ":requests")
        , .transportSub (channel ++ ":responses")
        , .intervalStart
        , .busEmit "open" ⟨"open", .undefined⟩ ])

/-- Rejecting every entry of the pending table with `reason`
(`req.reject(...)` on each value): requests already settled are silent
no-ops; every request object becomes settled. The table entries themselves
are not removed. -/
def rejectPending (reqs : List (String × OutboundRequest)) (reason : Val) :
    List (String × OutboundRequest) × List Action :=
  ( reqs.map (fun p => (p.1, { p.2 with settled := true }))
  , reqs.filterMap (fun p =>
      if p.2.settled then none else some (.settleReject p.1 reason)) )

/-- `Socket.close()`: fails with AlreadyClosed if closed; otherwise clears
`isOpen` and the channel binding, stops the sweep, cancels the transport
subscriptions, rejects every pending request with `ConnectionLostError`,
and emits `close`. Note: the code does not delete the rejected entries
from `__pendingRequests`, nor does it unset `__pendingRequests` or
`__subscriptions`. -/
def Socket.close (s : SocketState) :
    Except SocketFailure (SocketState × List Action) :=
  if !s.isOpen then .error .socketClosed
  else
    let unsubActs := (s.subscriptions.getD []).map Action.transportUnsub
    let rejected :=
      match s.pendingRequests with
      | none => (none, [])
      | some reqs =>
          let r := rejectPending reqs .errConnectionLost
          (some r.1, r.2)
    .ok ({ s with isOpen := false, channel := none, pendingRequests := rejected.1 },
        [Action.intervalStop] ++ unsubActs ++ rejected.2
          ++ [.busEmit "close" ⟨"close", .undefined⟩])

/-- `Socket.send(event, payload)`: requires the socket open and a non-empty
event name, then sends `(event, payload)` on the events sub-channel. -/
def Socket.send (s : SocketState) (event : String) (payload : Val) :
    Except SocketFailure (SocketState × List Action) :=
  if !s.isOpen then .error .socketClosed
  else if event = "" then .error (.required "event")
  else .ok (s, [.transportSend (chanStr s ++ ":events") [.str event, payload]])

/-- `requests[id] = req`: JavaScript object-key assignment on the pending
table — overwrite an existing key in place, otherwise append. -/
def insertReq (reqs : List (String × OutboundRequest)) (id : String)
    (r : OutboundRequest) : List (String × OutboundRequest) :=
  if reqs.any (fun p => p.1 = id) then
    reqs.map (fun p => if p.1 = id then (id, r) else p)
  else reqs ++ [(id, r)]

/-- `delete requests[id]`: remove the entry stored under `id` (object keys
are unique, so this is a filter on the key). -/
def eraseReq (reqs : List (String × OutboundRequest)) (id : String) :
    List (String × OutboundRequest) :=
  reqs.filter (fun p => p.1 ≠ id)

/-- `Socket.request(path, payload)`: requires the socket open and a
non-empty path; creates an `OutboundRequest` with the fresh correlation id
`freshId` (`nanoid`) and creation time `now` (`Date.now()`), stores it in
the pending table, and sends `(path, id, payload)` on the requests
sub-channel. The synchronous behaviour of `transport.send` is an input:
`sendRaised = some cause` models it throwing `cause`; `settledDuring`
models whether re-entrant code settled the fresh request during the send
(the code's `req.isDisposed()` check in the `catch`). On a throw, an
unsettled request is rejected with `UnhandledExceptionError(cause)` and its
entry deleted, and in either case the failure is re-emitted as an `error`
lifecycle event. (Re-entrant mutation of the table itself during
`transport.send` is outside this model.) -/
def Socket.request (s : SocketState) (path : String) (payload : Val)
    (freshId : String) (now : Nat) (sendRaised : Option Val)
    (settledDuring : Bool) :
    Except SocketFailure (SocketState × List Action) :=
  if !s.isOpen then .error .socketClosed
  else if path = "" then .error (.required "path")
  else
    match s.pendingRequests with
    | none => .ok (s, [])
    | some reqs =>
        let withReq := insertReq reqs freshId
          { id := freshId, timestamp := now, settled := settledDuring }
        match sendRaised with
        | none =>
            .ok ({ s with pendingRequests := some withReq },
                [.transportSend (chanStr s ++ ":requests")
                  [.str path, .str freshId, payload]])
        | some cause =>
            if settledDuring then
              .ok ({ s with pendingRequests := some withReq },
                  [.busEmit "error" ⟨"error", cause⟩])
            else
              .ok ({ s with pendingRequests := some (eraseReq withReq freshId) },
                  [ .settleReject freshId (.errUnhandledException cause)
                  , .busEmit "error" ⟨"error", cause⟩ ])

/-- `Socket.__cleanup()` at current time `now`: if the pending table exists,
collect every entry whose age `now - timestamp` strictly exceeds
`requestTimeout`, reject each with `TimeoutError` (a no-op on an already
settled request) and delete it from the table. -/
def Socket.cleanup (s : SocketState) (now : Nat) : SocketState × List Action :=
  match s.pendingRequests with
  | none => (s, [])
  | some reqs =>
      let hanging := reqs.filter (fun p => now - p.2.timestamp > s.requestTimeout)
      let acts := hanging.filterMap (fun p =>
        if p.2.settled then none else some (Action.settleReject p.1 .errTimeout))
      let kept := reqs.filter (fun p => ¬ (now - p.2.timestamp > s.requestTimeout))
      ({ s with pendingRequests := some kept }, acts)

/-- `Socket.__sendResponse(path, id, err, payload)`: the payload slot
carries `null` when `err` is truthy and `payload` otherwise; the error slot
carries `err.message` when `err` is an error object (in which case the
original error is additionally republished on the `error` lifecycle channel
on a deferred turn) and `err` itself otherwise; the 4-slot message goes out
on the responses sub-channel. -/
def Socket.sendResponse (s : SocketState) (path id : String) (err : Val)
    (payload : Val) : List Action :=
  let data := if err.truthy then Val.null else payload
  let error := if err.isError then Val.str err.message else err
  [.transportSend (chanStr s ++ ":responses") [.str path, .str id, error, data]]
    ++ (if err.isError then [.deferredBusError err] else [])

/-- `Socket.__handleRequest([path, id, payload])`: if a handler is
registered for `path` on the internal bus (`hasHandler`), deliver
`(id, InboundRequest(path, payload))` through the bus; otherwise respond
immediately with a `NotFoundError(path)`. -/
def Socket.handleRequest (s : SocketState) (path id : String) (payload : Val)
    (hasHandler : Bool) : List Action :=
  if hasHandler then
    [.busEmitRequest (BUS_REQUESTS ++ "/" ++ path) id path payload]
  else
    Socket.sendResponse s path id (.errNotFound path) .undefined

/-- `Socket.__handleResponse([_, id, err, payload])`: nothing happens when
the pending table is absent; otherwise the entry under `id` is looked up.
If found: a truthy `err` rejects the request with `err` itself when it is
an error object and with `new Error(err.toString())` otherwise, a falsy
`err` resolves it with `payload`; the entry is deleted either way. If not
found, a `Redundant request handler` error is emitted on the `error`
lifecycle channel and the table is untouched. -/
def Socket.handleResponse (s : SocketState) (id : String) (err : Val)
    (payload : Val) : SocketState × List Action :=
  match s.pendingRequests with
  | none => (s, [])
  | some reqs =>
      match reqs.lookup id with
      | some req =>
          let settleAct : List Action :=
            if req.settled then []
            else if err.truthy then
              [.settleReject id (if err.isError then err else .errGeneric err.jsToString)]
            else
              [.settleResolve id payload]
          ({ s with pendingRequests := some (eraseReq reqs id) }, settleAct)
      | none =>
          (s, [.busEmit "error" ⟨"error", .errGeneric "Redundant request handler"⟩])

/-! ## Socket operation sequences (for the lifecycle invariant) -/

/-- One public-surface or handler-driven operation on a socket, with the
external inputs (fresh id, current time, transport behaviour) it consumes. -/
inductive SocketOp where
  | opOpen (channel : String) : SocketOp
  | opClose : SocketOp
  | opSend (event : String) (payload : Val) : SocketOp
  | opRequest (path : String) (payload : Val) (freshId : String) (now : Nat)
      (sendRaised : Option Val) (settledDuring : Bool) : SocketOp
  | opCleanup (now : Nat) : SocketOp
  | opHandleResponse (id : String) (err : Val) (payload : Val) : SocketOp
  deriving DecidableEq, Repr

/-- The state after one operation; a thrown `SocketFailure` leaves the
state unchanged (each method validates before mutating). -/
def SocketOp.step (s : SocketState) : SocketOp → SocketState
  | .opOpen channel => (((Socket.openSocket s channel).map Prod.fst).toOption).getD s
  | .opClose => (((Socket.close s).map Prod.fst).toOption).getD s
  | .opSend event payload => (((Socket.send s event payload).map Prod.fst).toOption).getD s
  | .opRequest path payload freshId now sendRaised settledDuring =>
      (((Socket.request s path payload freshId now sendRaised settledDuring).map
        Prod.fst).toOption).getD s
  | .opCleanup now => (Socket.cleanup s now).1
  | .opHandleResponse id err payload => (Socket.handleResponse s id err payload).1

/-- Run a sequence of operations from a state. -/
def runOps (s : SocketState) : List SocketOp → SocketState
  | [] => s
  | op :: rest => runOps (op.step s) rest

/-- The lifecycle field invariant that actually holds: the channel binding
is present exactly while the socket is open, and while open the pending
table and subscription list are present. -/
def fieldInvariant (s : SocketState) : Prop :=
  (s.channel.isSome = s.isOpen)
    ∧ (s.isOpen = true → s.pendingRequests.isSome = true ∧ s.subscriptions.isSome = true)

instance (s : SocketState) : Decidable (fieldInvariant s) := by
  unfold fieldInvariant; infer_instance

/-! ## The once-subscription wrapper (`Socket.__subscribe` with `once = true`)

`__subscribe(event, listener, true)` registers on the bus the wrapper

```text
(args) => { if (unbind != null) { listener(args); unbind(); unbind = undefined; } }
```

where `unbind` is the bus unbind handle captured in a mutable cell. The bus
(`nanoevents`) iterates a snapshot of the listener array on each `emit`, so
the wrapper can be invoked again by a delivery that started before the
wrapper unsubscribed itself. An `Inv` value is one wrapper invocation; its
children are the wrapper invocations triggered re-entrantly from inside
`listener(args)` (an event emitted while the listener runs). -/

/-- A sequence of once-wrapper invocations within one delivery turn:
`inv nested rest` is one wrapper invocation whose user listener re-entrantly
triggers the invocations `nested` while it executes, followed by the
invocations `rest` delivered after it. -/
inductive InvSeq where
  | nil : InvSeq
  | inv : InvSeq → InvSeq → InvSeq
  deriving DecidableEq, Repr

/-- Execute wrapper invocations. State: whether the `unbind` cell is still
set. Result: (final cell state, number of user-listener calls, whether a
`TypeError` was thrown). When the guard passes, the listener runs — with
the cell still set, so nested invocations pass the guard too — and only
afterwards `unbind()` runs and the cell is cleared; if a nested invocation
already cleared the cell, the outer `unbind()` call throws, and a throw
aborts the remainder of the delivery turn. -/
def runSeq : Bool → InvSeq → Bool × Nat × Bool
  | b, .nil => (b, 0, false)
  | b, .inv nested rest =>
      if b then
        let r := runSeq true nested
        if r.2.2 then (r.1, r.2.1 + 1, true)
        else if r.1 then
          let r2 := runSeq false rest
          (r2.1, r.2.1 + 1 + r2.2.1, r2.2.2)
        else (false, r.2.1 + 1, true)
      else
        let r2 := runSeq b rest
        (r2.1, r2.2.1, r2.2.2)

/-- `n` wrapper invocations back-to-back, none of which re-enters from
inside the listener. -/
def leafDeliveries : Nat → InvSeq
  | 0 => .nil
  | n + 1 => .inv .nil (leafDeliveries n)

/-- A single delivery whose listener re-entrantly triggers a second
delivery of the same event while it is still executing. -/
def reentrantDelivery : InvSeq := .inv (.inv .nil .nil) .nil

/-! ## Transport adapter (`Transport` from `src/transport.ts`) -/

/-- Effects of transport operations on the underlying input/output
primitives. -/
inductive TransportAction where
  | inputOn (channel : String) : TransportAction
  | inputRemoveListener (channel : String) : TransportAction
  | outputSend (channel : String) (args : List Val) : TransportAction
  deriving DecidableEq, Repr

/-- Errors thrown by the transport: RequiredArgument and AlreadyDisposed. -/
inductive TransportFailure where
  | required (name : String) : TransportFailure
  | disposed : TransportFailure
  deriving DecidableEq, Repr

/-- `Transport.__listeners`: bookkeeping entries, internal subscription id
to the channel the underlying listener was registered on (`none` when the
field has been deleted by disposal). The wrapped listener function itself
is characterized by `Transport.listenerDeliver`. -/
structure TransportState where
  listeners : Option (List (String × String))
  deriving DecidableEq, Repr

/-- The listener `(_, ...args) => subscriber(args)` that `Transport.on`
registers on the underlying input: given the full argument list of one
emission, the array value passed to the subscriber. The first argument of
the emission is discarded. -/
def Transport.listenerDeliver (emission : List Val) : List Val :=
  emission.drop 1

/-- `Transport.send(channel, ...args)`: requires a non-empty channel, then
forwards to the underlying output. -/
def Transport.sendT (_t : TransportState) (channel : String) (args : List Val) :
    Except TransportFailure (List TransportAction) :=
  if channel = "" then .error (.required "channel")
  else .ok [.outputSend channel args]

/-- `Transport.on(channel, subscriber)`: requires a non-empty channel and a
subscriber, and an undisposed listener table; registers the wrapping
listener on the underlying input, stores a bookkeeping entry under the
fresh internal id `freshId` (`nanoid()`), and returns
`__unsubscribe.bind(this, id)` — represented by returning `freshId`, the id
the cancel handle is bound to. -/
def Transport.on (t : TransportState) (channel : String)
    (subscriberPresent : Bool) (freshId : String) :
    Except TransportFailure (TransportState × String × List TransportAction) :=
  if channel = "" then .error (.required "channel")
  else if !subscriberPresent then .error (.required "subscriber")
  else
    match t.listeners with
    | none => .error .disposed
    | some ls =>
        .ok ({ listeners := some (ls ++ [(freshId, channel)]) }, freshId,
            [.inputOn channel])

/-- `Transport.__unsubscribe(id)`: does nothing when disposed; otherwise
removes the underlying listener when an entry for `id` exists, and deletes
the bookkeeping entry. -/
def Transport.unsubscribe (t : TransportState) (id : String) :
    TransportState × List TransportAction :=
  match t.listeners with
  | none => (t, [])
  | some ls =>
      let acts : List TransportAction :=
        match ls.lookup id with
        | some channel => [.inputRemoveListener channel]
        | none => []
      ({ listeners := some (ls.filter (fun p => p.1 ≠ id)) }, acts)

/-! ## Sweep tick schedules (for the timeout bound of the sweep) -/

/-- Consecutive sweep ticks are at most `c` apart. -/
def gapsLeB (c : Nat) : List Nat → Bool
  | a :: b :: rest => decide (b ≤ a + c) && gapsLeB c (b :: rest)
  | _ => true

/-- The first sweep tick at which an entry created at `ts` has been pending
strictly longer than `timeout`. -/
def firstExpiryTick (ticks : List Nat) (ts timeout : Nat) : Option Nat :=
  ticks.find? (fun t => ts + timeout < t)

/-- Run the sweep at each tick time in order. -/
def sweepAll (s : SocketState) : List Nat → SocketState
  | [] => s
  | t :: ts => sweepAll (Socket.cleanup s t).1 ts

/-! ## Concrete runs used as witnesses and counterexamples -/

/-- A socket opened on channel `ch` with one outstanding request `r1`
created at time 5, then closed. -/
def closedWithPending : SocketState :=
  runOps (Socket.construct {})
    [.opOpen "ch", .opRequest "p" .null "r1" 5 none false, .opClose]

/-- The state just before the close in `closedWithPending`. -/
def openWithPending : SocketState :=
  runOps (Socket.construct {})
    [.opOpen "ch", .opRequest "p" .null "r1" 5 none false]

/-- A socket opened and closed with no traffic. -/
def openedThenClosed : SocketState :=
  runOps (Socket.construct {}) [.opOpen "ch", .opClose]

/-- An open socket with a pending request `q1` created at time 0 (used by
the inbound-response claims). -/
def openWithQ1 : SocketState :=
  runOps (Socket.construct {}) [.opOpen "ch", .opRequest "p" (.num 1) "q1" 0 none false]

/-- An open socket holding two pending requests, created at times 0 and
2000 (used by the sweep claim). -/
def sweepSocket : SocketState :=
  { isOpen := true
  , channel := some "ch"
  , requestTimeout := 60000
  , sweepInterval := 60000
  , pendingRequests := some [("a", ⟨"a", 0, false⟩), ("b", ⟨"b", 2000, false⟩)]
  , subscriptions := some ["ch:events", "ch:requests", "ch:responses"] }

/-! # Theorems -/

/-- Every error object is truthy. -/
theorem Val.truthy_of_isError {v : Val} (h : v.isError = true) : v.truthy = true := by
  cases v <;> simp_all [Val.isError, Val.truthy]

/-- A sequence of once-wrapper invocations starting with the `unbind` cell
cleared does nothing: the guard fails on every invocation. -/
theorem runSeq_false (l : InvSeq) : runSeq false l = (false, 0, false) := by
  induction l with
  | nil => rfl
  | inv nested rest ihn ihr => simp [runSeq, ihr]

/-- **C10** For every `Socket` constructed with settings where `timeout` is
0 or `cleanup` is 0, the constructed instance uses the default 60000 ms for
that option: `settings.timeout || 60000` and `settings.cleanup || 60000`
treat the falsy number 0 like an absent option. -/
theorem construct_zero_settings_use_defaults (settings : Settings) :
    (settings.timeout = some 0 → (Socket.construct settings).requestTimeout = 60000)
    ∧ (settings.cleanup = some 0 → (Socket.construct settings).sweepInterval = 60000) := by
  constructor <;> intro h <;> simp [Socket.construct, jsOrDefault, h]

/-- Witness for C10 at the concrete settings `{timeout := 0, cleanup := 0}`. -/
theorem construct_zero_settings_use_defaults_witness :
    (Socket.construct { timeout := some 0, cleanup := some 0 }).requestTimeout = 60000
    ∧ (Socket.construct { timeout := some 0, cleanup := some 0 }).sweepInterval = 60000 :=
  ⟨(construct_zero_settings_use_defaults _).1 rfl,
   (construct_zero_settings_use_defaults _).2 rfl⟩

/-- **C4** For every message `(path, id, payload)` received on the requests
sub-channel with no handler registered for `path` on the internal bus, the
socket immediately performs exactly one response send, on the responses
sub-channel, carrying the message text of a `NotFoundError` whose
identifying field equals `path`, correlated with `id` (and a null payload
slot); the only other effect is the deferred republication of that
`NotFoundError` on the `error` lifecycle channel. -/
theorem handle_request_without_handler_sends_not_found (s : SocketState)
    (path id : String) (payload : Val) :
    Socket.handleRequest s path id payload false
      = [ Action.transportSend (chanStr s ++ ":responses")
            [.str path, .str id, .str (Val.errNotFound path).message, .null]
        , Action.deferredBusError (.errNotFound path) ] := rfl

/-- **C7** Every response send puts `(path, id, errorMessageOrNull,
payloadOrNull)` on the responses sub-channel: when the supplied error value
is an error object, only its message text occupies the error slot and the
payload slot is null; when no error is supplied (`undefined`), the error
slot is empty and the payload crosses unchanged. -/
theorem send_response_wire_shape (s : SocketState) (path id : String)
    (err payload : Val) (hErr : err.isError = true) :
    Socket.sendResponse s path id err payload
      = [ Action.transportSend (chanStr s ++ ":responses")
            [.str path, .str id, .str err.message, .null]
        , Action.deferredBusError err ]
    ∧ Socket.sendResponse s path id .undefined payload
      = [ Action.transportSend (chanStr s ++ ":responses")
            [.str path, .str id, .undefined, payload] ] := by
  refine ⟨?_, rfl⟩
  simp [Socket.sendResponse, hErr, Val.truthy_of_isError hErr]

/-- Witness for C7 at a `TimeoutError` error value and payload 3. -/
theorem send_response_wire_shape_witness :
    Val.errTimeout.isError = true
    ∧ Socket.sendResponse (Socket.construct {}) "p" "i" .errTimeout (.num 3)
      = [ Action.transportSend "undefined:responses"
            [.str "p", .str "i", .str "Request timeout", .null]
        , Action.deferredBusError .errTimeout ] :=
  ⟨rfl, (send_response_wire_shape (Socket.construct {}) "p" "i" .errTimeout (.num 3) rfl).1⟩

/-- **C8 (counterexample)** The claim says a second delivery occurring
re-entrantly while the first is still being delivered also leads to exactly
one handler invocation. It is false when the re-entrant delivery is
triggered from inside the handler itself: the wrapper runs
`listener(args)` before clearing the `unbind` cell, so the nested
invocation passes the guard too — the handler runs twice (and the outer
`unbind()` then throws on the cleared cell). -/
theorem once_handler_reentrant_double_invocation :
    runSeq true reentrantDelivery = (false, 2, true) ∧ (2 : Nat) ≠ 1 :=
  ⟨rfl, by decide⟩

/-- **C8 (amended)** A handler registered with `once = true` and invoked by
`n ≥ 1` back-to-back deliveries in the same delivery turn — including a
re-entrant delivery that completes while an earlier delivery's listener
snapshot has not yet reached the wrapper, but not a delivery triggered from
inside the handler's own execution — is invoked exactly once: the first
invocation clears the `unbind` cell and every later invocation is stopped
by the guard. -/
theorem once_handler_invoked_exactly_once (n : Nat) (h : 1 ≤ n) :
    runSeq true (leafDeliveries n) = (false, 1, false) := by
  obtain ⟨m, rfl⟩ : ∃ m, n = m + 1 := ⟨n - 1, by omega⟩
  simp [leafDeliveries, runSeq, runSeq_false]

/-- Witness for C8 at two back-to-back deliveries. -/
theorem once_handler_invoked_exactly_once_witness :
    1 ≤ 2 ∧ runSeq true (leafDeliveries 2) = (false, 1, false) :=
  ⟨by decide, once_handler_invoked_exactly_once 2 (by decide)⟩

/-- **C1 (counterexample)** The claim says the pending-request table is
empty after `close()` returns. On a socket opened, given one outstanding
request `r1` and closed, `close()` does reject `r1` with
`ConnectionLostError`, but it never deletes the entries: the table still
holds `r1` (now settled) when `close()` returns. -/
theorem close_does_not_empty_pending_table :
    Socket.close openWithPending
      = .ok (closedWithPending,
          [ Action.intervalStop
          , .transportUnsub "ch:events"
          , .transportUnsub "ch:requests"
          , .transportUnsub "ch:responses"
          , .settleReject "r1" .errConnectionLost
          , .busEmit "close" ⟨"close", .undefined⟩ ])
    ∧ closedWithPending.pendingRequests = some [("r1", ⟨"r1", 5, true⟩)]
    ∧ closedWithPending.pendingRequests ≠ some [] :=
  ⟨rfl, rfl, by decide⟩

/-- **C1 (amended)** Calling `close()` on an open socket whose pending
table holds `reqs` rejects, synchronously within `close()`, every not yet
settled entry with a `ConnectionLostError` (and the sweep is stopped, the
subscriptions cancelled, and a `close` lifecycle event published); but
after `close()` returns the pending-request table is not empty — it still
holds every entry, each now marked settled. The table is reset only by the
next `open()`. -/
theorem close_rejects_all_pending_synchronously (s : SocketState)
    (reqs : List (String × OutboundRequest))
    (hOpen : s.isOpen = true) (hreqs : s.pendingRequests = some reqs) :
    Socket.close s = .ok
      ({ s with
          isOpen := false
        , channel := none
        , pendingRequests := some (reqs.map (fun p => (p.1, { p.2 with settled := true }))) }
      , [Action.intervalStop]
          ++ (s.subscriptions.getD []).map Action.transportUnsub
          ++ reqs.filterMap (fun p => if p.2.settled then none
              else some (Action.settleReject p.1 .errConnectionLost))
          ++ [.busEmit "close" ⟨"close", .undefined⟩])
    ∧ (∀ p ∈ reqs, p.2.settled = false →
        Action.settleReject p.1 Val.errConnectionLost
          ∈ reqs.filterMap (fun p => if p.2.settled then none
              else some (Action.settleReject p.1 .errConnectionLost))) := by
  constructor
  · simp [Socket.close, hOpen, hreqs, rejectPending]
  · intro p hp hset
    exact List.mem_filterMap.2 ⟨p, hp, by simp [hset]⟩

/-- Witness for C1 (amended): an open socket carrying the single pending
request `r1`. -/
theorem close_rejects_all_pending_synchronously_witness :
    openWithPending.isOpen = true
    ∧ Socket.close openWithPending = .ok
        ({ openWithPending with
            isOpen := false
          , channel := none
          , pendingRequests := some [("r1", ⟨"r1", 5, true⟩)] }
        , [ Action.intervalStop
          , .transportUnsub "ch:events"
          , .transportUnsub "ch:requests"
          , .transportUnsub "ch:responses"
          , .settleReject "r1" .errConnectionLost
          , .busEmit "close" ⟨"close", .undefined⟩ ]) := by
  have h := close_rejects_all_pending_synchronously openWithPending
      [("r1", ⟨"r1", 5, false⟩)] (by decide) (by decide)
  exact ⟨by decide, h.1⟩

/-- **C2 (counterexample)** The claim says `channel` and `pendingRequests`
are set exactly when `isOpen` is true. After `open()` followed by
`close()`, the socket is closed but `__pendingRequests` (and
`__subscriptions`) are still set: `close()` never unsets them. -/
theorem closed_socket_retains_pending_table :
    openedThenClosed.isOpen = false
    ∧ openedThenClosed.pendingRequests.isSome = true
    ∧ openedThenClosed.subscriptions.isSome = true :=
  ⟨rfl, rfl, rfl⟩

/-- Reduction of `SocketOp.step` on a successful operation. -/
theorem step_unfold_ok (s : SocketState) (x : SocketState × List Action) :
    (((Except.ok (ε := SocketFailure) x).map Prod.fst).toOption).getD s = x.1 := rfl

/-- Reduction of `SocketOp.step` on a thrown `SocketFailure`. -/
theorem step_unfold_err (s : SocketState) (e : SocketFailure) :
    (((Except.error (α := SocketState × List Action) e).map Prod.fst).toOption).getD s = s := rfl

/-- One public operation preserves the lifecycle field invariant. -/
theorem step_preserves_fieldInvariant (s : SocketState) (op : SocketOp)
    (h : fieldInvariant s) : fieldInvariant (op.step s) := by
  obtain ⟨h1, h2⟩ := h
  cases op with
  | opOpen channel =>
      by_cases hO : s.isOpen = true
      · have hs : (SocketOp.opOpen channel).step s = s := by
          simp [SocketOp.step, Socket.openSocket, hO, step_unfold_err]
        rw [hs]; exact ⟨h1, h2⟩
      · have hs : (SocketOp.opOpen channel).step s
            = { s with
                  isOpen := true
                , channel := some channel
                , pendingRequests := some []
                , subscriptions := some
                    [channel ++ ":events", channel ++ ":requests", channel ++ ":responses"] } := by
          simp [SocketOp.step, Socket.openSocket, hO, step_unfold_ok]
        rw [hs]; exact ⟨rfl, fun _ => ⟨rfl, rfl⟩⟩
  | opClose =>
      by_cases hO : s.isOpen = true
      · cases hpr : s.pendingRequests with
        | none =>
            have hs : SocketOp.opClose.step s
                = { s with isOpen := false, channel := none, pendingRequests := none } := by
              simp [SocketOp.step, Socket.close, hO, hpr, step_unfold_ok]
            rw [hs]; exact ⟨rfl, fun hc => nomatch hc⟩
        | some reqs =>
            have hs : SocketOp.opClose.step s
                = { s with
                      isOpen := false
                    , channel := none
                    , pendingRequests := some (rejectPending reqs .errConnectionLost).1 } := by
              simp [SocketOp.step, Socket.close, hO, hpr, step_unfold_ok]
            rw [hs]; exact ⟨rfl, fun hc => nomatch hc⟩
      · have hs : SocketOp.opClose.step s = s := by
          simp [SocketOp.step, Socket.close, hO, step_unfold_err]
        rw [hs]; exact ⟨h1, h2⟩
  | opSend event payload =>
      have hs : (SocketOp.opSend event payload).step s = s := by
        by_cases hO : s.isOpen = true
        · by_cases he : event = ""
          · simp [SocketOp.step, Socket.send, hO, he, step_unfold_err]
          · simp [SocketOp.step, Socket.send, hO, he, step_unfold_ok]
        · simp [SocketOp.step, Socket.send, hO, step_unfold_err]
      rw [hs]; exact ⟨h1, h2⟩
  | opRequest path payload freshId now sendRaised settledDuring =>
      by_cases hO : s.isOpen = true
      · by_cases hp : path = ""
        · have hs : (SocketOp.opRequest path payload freshId now sendRaised settledDuring).step s
              = s := by
            simp [SocketOp.step, Socket.request, hO, hp, step_unfold_err]
          rw [hs]; exact ⟨h1, h2⟩
        · cases hpr : s.pendingRequests with
          | none =>
              have hs : (SocketOp.opRequest path payload freshId now sendRaised
                    settledDuring).step s = s := by
                simp [SocketOp.step, Socket.request, hO, hp, hpr, step_unfold_ok]
              rw [hs]; exact ⟨h1, h2⟩
          | some reqs =>
              have hsub : s.subscriptions.isSome = true := (h2 hO).2
              cases sendRaised with
              | none =>
                  have hs : (SocketOp.opRequest path payload freshId now none
                        settledDuring).step s
                      = { s with pendingRequests := some (insertReq reqs freshId
                            { id := freshId, timestamp := now, settled := settledDuring }) } := by
                    simp [SocketOp.step, Socket.request, hO, hp, hpr, step_unfold_ok]
                  rw [hs]; exact ⟨h1, fun _ => ⟨rfl, hsub⟩⟩
              | some cause =>
                  by_cases hsd : settledDuring = true
                  · have hs : (SocketOp.opRequest path payload freshId now (some cause)
                          settledDuring).step s
                        = { s with pendingRequests := some (insertReq reqs freshId
                              { id := freshId, timestamp := now, settled := settledDuring }) } := by
                      simp [SocketOp.step, Socket.request, hO, hp, hpr, hsd, step_unfold_ok]
                    rw [hs]; exact ⟨h1, fun _ => ⟨rfl, hsub⟩⟩
                  · have hs : (SocketOp.opRequest path payload freshId now (some cause)
                          settledDuring).step s
                        = { s with pendingRequests := some (eraseReq (insertReq reqs freshId
                              { id := freshId, timestamp := now, settled := settledDuring })
                              freshId) } := by
                      simp [SocketOp.step, Socket.request, hO, hp, hpr, hsd, step_unfold_ok]
                    rw [hs]; exact ⟨h1, fun _ => ⟨rfl, hsub⟩⟩
      · have hs : (SocketOp.opRequest path payload freshId now sendRaised
            settledDuring).step s = s := by
          simp [SocketOp.step, Socket.request, hO, step_unfold_err]
        rw [hs]; exact ⟨h1, h2⟩
  | opCleanup now =>
      cases hpr : s.pendingRequests with
      | none =>
          have hs : (SocketOp.opCleanup now).step s = s := by
            simp [SocketOp.step, Socket.cleanup, hpr]
          rw [hs]; exact ⟨h1, h2⟩
      | some reqs =>
          have hs : (SocketOp.opCleanup now).step s
              = { s with pendingRequests := some (reqs.filter
                    (fun p => ¬ (now - p.2.timestamp > s.requestTimeout))) } := by
            simp [SocketOp.step, Socket.cleanup, hpr]
          rw [hs]; exact ⟨h1, fun hO => ⟨rfl, (h2 hO).2⟩⟩
  | opHandleResponse id err payload =>
      cases hpr : s.pendingRequests with
      | none =>
          have hs : (SocketOp.opHandleResponse id err payload).step s = s := by
            simp [SocketOp.step, Socket.handleResponse, hpr]
          rw [hs]; exact ⟨h1, h2⟩
      | some reqs =>
          cases hl : reqs.lookup id with
          | some req =>
              have hs : (SocketOp.opHandleResponse id err payload).step s
                  = { s with pendingRequests := some (eraseReq reqs id) } := by
                simp [SocketOp.step, Socket.handleResponse, hpr, hl]
              rw [hs]; exact ⟨h1, fun hO => ⟨rfl, (h2 hO).2⟩⟩
          | none =>
              have hs : (SocketOp.opHandleResponse id err payload).step s = s := by
                simp [SocketOp.step, Socket.handleResponse, hpr, hl]
              rw [hs]; exact ⟨h1, h2⟩

/-- **C2 (amended)** For every socket freshly constructed and after every
sequence of public operations, `channel` is set exactly when `isOpen` is
true, and while the socket is open `pendingRequests` and `subscriptions`
are set. The original lockstep claim fails in the other direction:
`close()` leaves `pendingRequests` (and `subscriptions`) set while
`isOpen` is false. -/
theorem socket_lifecycle_field_invariant (settings : Settings) (ops : List SocketOp) :
    fieldInvariant (runOps (Socket.construct settings) ops) := by
  have hstep : ∀ (s : SocketState) (l : List SocketOp),
      fieldInvariant s → fieldInvariant (runOps s l) := by
    intro s l
    induction l generalizing s with
    | nil => exact fun h => h
    | cons op rest ih => exact fun h => ih _ (step_preserves_fieldInvariant s op h)
  exact hstep _ _ (by simp [Socket.construct, fieldInvariant])

/-- Witness for C2 (amended) on a concrete run: open, request, close. -/
theorem socket_lifecycle_field_invariant_witness :
    fieldInvariant (runOps (Socket.construct {})
      [.opOpen "ch", .opRequest "p" .null "r1" 5 none false, .opClose]) :=
  socket_lifecycle_field_invariant {}
    [.opOpen "ch", .opRequest "p" .null "r1" 5 none false, .opClose]

/-- **C5 (counterexample)** The claim says that whenever the error slot of
an inbound response is present, the matching request is rejected. The code
tests the slot with JavaScript truthiness (`if (err)`): a present but
falsy error value — here the empty string, e.g. produced by a remote
`Error` with empty message — makes the request RESOLVE with the payload
instead. -/
theorem empty_string_error_resolves_request :
    (Val.str "").truthy = false
    ∧ Val.str "" ≠ Val.undefined
    ∧ Val.str "" ≠ Val.null
    ∧ Socket.handleResponse openWithQ1 "q1" (.str "") (.num 7)
      = ({ openWithQ1 with pendingRequests := some [] }
        , [.settleResolve "q1" (.num 7)]) :=
  ⟨rfl, by decide, by decide, rfl⟩

/-- **C5 (amended)** For every message `(path, id, error, payload)` on the
responses sub-channel: if `id` is in the pending table, a present AND
truthy error rejects the request — with the value itself when it already
is an error object, otherwise with an error built from its string form —
while a falsy error slot (absent, but also a present empty string, 0 or
false) resolves it with `payload`; the entry is removed either way. If
`id` is unknown, a "Redundant request handler" diagnostic goes out on the
`error` lifecycle channel and the state (hence the table) is unchanged. -/
theorem handle_response_settles_by_truthiness (s : SocketState)
    (reqs : List (String × OutboundRequest)) (id : String) (err payload : Val)
    (hreqs : s.pendingRequests = some reqs) :
    (∀ req, reqs.lookup id = some req → req.settled = false →
      (err.truthy = true →
        Socket.handleResponse s id err payload
          = ({ s with pendingRequests := some (eraseReq reqs id) }
            , [.settleReject id (if err.isError then err else .errGeneric err.jsToString)]))
      ∧ (err.truthy = false →
        Socket.handleResponse s id err payload
          = ({ s with pendingRequests := some (eraseReq reqs id) }
            , [.settleResolve id payload])))
    ∧ (reqs.lookup id = none →
        Socket.handleResponse s id err payload
          = (s, [.busEmit "error" ⟨"error", .errGeneric "Redundant request handler"⟩])) := by
  constructor
  · intro req hl hset
    constructor <;> intro ht <;> simp [Socket.handleResponse, hreqs, hl, hset, ht]
  · intro hl
    simp [Socket.handleResponse, hreqs, hl]

/-- Witness for C5 (amended): a truthy non-error string `"boom"` in the
error slot rejects the pending request `q1` with `Error("boom")`. -/
theorem handle_response_settles_by_truthiness_witness :
    Socket.handleResponse openWithQ1 "q1" (.str "boom") .null
      = ({ openWithQ1 with pendingRequests := some [] }
        , [.settleReject "q1" (.errGeneric "boom")]) := by
  have h := handle_response_settles_by_truthiness openWithQ1
      [("q1", ⟨"q1", 0, false⟩)] "q1" (.str "boom") .null (by decide)
  exact (h.1 ⟨"q1", 0, false⟩ (by decide) rfl).1 (by decide)

/-- **C6** For every `request(path, payload)` on an open socket whose
transport send raises `cause` synchronously: if the fresh request has not
already been settled by re-entrant code, it is rejected with an
`UnhandledExceptionError` wrapping `cause` and its entry is removed from
the pending table (which returns to its previous contents); if it was
already settled, neither rejection nor removal happens; in either case the
failure is republished as an `error` lifecycle event on the internal bus. -/
theorem request_send_failure_rejects_and_republishes (s : SocketState)
    (reqs : List (String × OutboundRequest)) (path : String) (payload : Val)
    (freshId : String) (now : Nat) (cause : Val)
    (hOpen : s.isOpen = true) (hPath : path ≠ "")
    (hreqs : s.pendingRequests = some reqs)
    (hFresh : reqs.any (fun p => p.1 = freshId) = false) :
    Socket.request s path payload freshId now (some cause) false
      = .ok ({ s with pendingRequests := some reqs }
          , [ .settleReject freshId (.errUnhandledException cause)
            , .busEmit "error" ⟨"error", cause⟩ ])
    ∧ Socket.request s path payload freshId now (some cause) true
      = .ok ({ s with pendingRequests := some (reqs ++ [(freshId, ⟨freshId, now, true⟩)]) }
          , [.busEmit "error" ⟨"error", cause⟩]) := by
  have hmem : ∀ p ∈ reqs, ¬ p.1 = freshId := by
    intro p hp hcontra
    have hany : reqs.any (fun q => q.1 = freshId) = true :=
      List.any_eq_true.2 ⟨p, hp, by simp [hcontra]⟩
    rw [hany] at hFresh
    exact absurd hFresh (by simp)
  have hins : insertReq reqs freshId ⟨freshId, now, false⟩
      = reqs ++ [(freshId, ⟨freshId, now, false⟩)] := by
    simp [insertReq, hFresh]
  have hins2 : insertReq reqs freshId ⟨freshId, now, true⟩
      = reqs ++ [(freshId, ⟨freshId, now, true⟩)] := by
    simp [insertReq, hFresh]
  have herase : eraseReq (reqs ++ [(freshId, ⟨freshId, now, false⟩)]) freshId = reqs := by
    simp only [eraseReq, List.filter_append]
    rw [List.filter_eq_self.2 (by intro p hp; simpa using hmem p hp)]
    simp
  constructor
  · simp [Socket.request, hOpen, hPath, hreqs, hins, herase]
  · simp [Socket.request, hOpen, hPath, hreqs, hins2]

/-- Witness for C6: a transport throw of `"boom"` during a request on a
socket with the single pending request `q1`. -/
theorem request_send_failure_rejects_and_republishes_witness :
    Socket.request openWithQ1 "p" .null "r2" 9 (some (.str "boom")) false
      = .ok ({ openWithQ1 with pendingRequests := some [("q1", ⟨"q1", 0, false⟩)] }
          , [ .settleReject "r2" (.errUnhandledException (.str "boom"))
            , .busEmit "error" ⟨"error", .str "boom"⟩ ]) := by
  have h := request_send_failure_rejects_and_republishes openWithQ1
      [("q1", ⟨"q1", 0, false⟩)] "p" .null "r2" 9 (.str "boom")
      (by decide) (by decide) (by decide) (by decide)
  exact h.1

/-- **C9 (counterexample)** The claim says the subscriber receives the raw
argument list of the underlying emission. The listener registered by
`Transport.on` is `(_, ...args) => subscriber(args)`: on an emission with
arguments `["evt", "a"]` the subscriber receives `["a"]`, not the raw
list — the first argument is discarded. -/
theorem transport_listener_drops_first_argument :
    Transport.listenerDeliver [.str "evt", .str "a"] = [.str "a"]
    ∧ [Val.str "a"] ≠ [Val.str "evt", Val.str "a"] :=
  ⟨rfl, by decide⟩

/-- Lookup of a freshly appended key. -/
theorem lookup_append_fresh {β : Type} (ls : List (String × β)) (id : String) (b : β)
    (h : ∀ p ∈ ls, p.1 ≠ id) : (ls ++ [(id, b)]).lookup id = some b := by
  induction ls with
  | nil => simp [List.lookup]
  | cons p rest ih =>
      have hp : (id == p.1) = false :=
        beq_eq_false_iff_ne.2 (Ne.symm (h p (by simp)))
      simp only [List.cons_append, List.lookup, hp]
      exact ih (fun q hq => h q (by simp [hq]))

/-- **C9 (amended)** `Transport.on(channel, subscriber)` with a non-empty
channel and a live listener table registers the wrapping listener on the
underlying input, stores a bookkeeping entry for `channel` under the fresh
internal id, and returns a cancel handle bound to that id (cancelling it
removes the underlying registration and the entry); but for every emission
of arguments on the channel, the subscriber receives the emission's
argument list with its FIRST element removed (the wrapper discards the
leading event argument), not the raw list. -/
theorem transport_on_bookkeeping_and_delivery (t : TransportState)
    (ls : List (String × String)) (channel freshId : String)
    (hch : channel ≠ "") (hl : t.listeners = some ls)
    (hFresh : ∀ p ∈ ls, p.1 ≠ freshId) :
    Transport.on t channel true freshId
      = .ok ({ listeners := some (ls ++ [(freshId, channel)]) }, freshId, [.inputOn channel])
    ∧ (∀ emission : List Val, Transport.listenerDeliver emission = emission.drop 1)
    ∧ Transport.unsubscribe { listeners := some (ls ++ [(freshId, channel)]) } freshId
      = ({ listeners := some ls }, [.inputRemoveListener channel]) := by
  refine ⟨?_, fun _ => rfl, ?_⟩
  · simp [Transport.on, hch, hl]
  · have hlook := lookup_append_fresh ls freshId channel hFresh
    simp only [Transport.unsubscribe, hlook]
    rw [List.filter_append]
    rw [List.filter_eq_self.2 (by intro p hp; simpa using hFresh p hp)]
    simp

/-- Iterating the sweep filters the pending table by "age within the
timeout at every tick"; the request timeout never changes. -/
theorem sweepAll_char (ticks : List Nat) :
    ∀ (s : SocketState) (reqs : List (String × OutboundRequest)),
      s.pendingRequests = some reqs →
      (sweepAll s ticks).pendingRequests
        = some (reqs.filter (fun p => ticks.all
            (fun t => ¬ (t - p.2.timestamp > s.requestTimeout))))
      ∧ (sweepAll s ticks).requestTimeout = s.requestTimeout := by
  induction ticks with
  | nil =>
      intro s reqs h
      exact ⟨by simpa [sweepAll] using h, rfl⟩
  | cons t ts ih =>
      intro s reqs h
      have hstep : (Socket.cleanup s t).1
          = { s with pendingRequests := some (reqs.filter
              (fun p => ¬ (t - p.2.timestamp > s.requestTimeout))) } := by
        simp [Socket.cleanup, h]
      have ih' := ih { s with pendingRequests := some (reqs.filter
          (fun p => ¬ (t - p.2.timestamp > s.requestTimeout))) }
        (reqs.filter (fun p => ¬ (t - p.2.timestamp > s.requestTimeout))) rfl
      rw [show sweepAll s (t :: ts) = sweepAll (Socket.cleanup s t).1 ts from rfl, hstep]
      refine ⟨?_, ih'.2⟩
      rw [ih'.1]
      congr 1
      rw [List.filter_filter]
      refine List.filter_congr ?_
      intro p hp
      simp [List.all_cons, Bool.and_comm]

/-- For a tick schedule with consecutive gaps at most `c` and first tick no
later than `ts + timeout + c`, the first tick past the expiry deadline of
an entry created at `ts` lies in the interval
`(ts + timeout, ts + timeout + c]`. -/
theorem firstExpiryTick_bound (c ts timeout : Nat) :
    ∀ (ticks : List Nat) (t : Nat),
      gapsLeB c ticks = true →
      (∀ t0, ticks.head? = some t0 → t0 ≤ ts + timeout + c) →
      firstExpiryTick ticks ts timeout = some t →
      ts + timeout < t ∧ t ≤ ts + timeout + c := by
  intro ticks
  induction ticks with
  | nil => intro t _ _ hf; simp [firstExpiryTick] at hf
  | cons a rest ih =>
      intro t hg hh hf
      by_cases ha : ts + timeout < a
      · have hfa : firstExpiryTick (a :: rest) ts timeout = some a :=
          List.find?_cons_of_pos rest (by simpa using ha)
        rw [hfa] at hf
        obtain rfl : a = t := Option.some.inj hf
        exact ⟨ha, hh a rfl⟩
      · have hfr : firstExpiryTick (a :: rest) ts timeout
            = firstExpiryTick rest ts timeout :=
          List.find?_cons_of_neg rest (by simpa using ha)
        rw [hfr] at hf
        have hg' : gapsLeB c rest = true := by
          cases rest with
          | nil => rfl
          | cons b rs =>
              have h2 : b ≤ a + c ∧ gapsLeB c (b :: rs) = true := by
                simpa [gapsLeB] using hg
              exact h2.2
        have hh' : ∀ t0, rest.head? = some t0 → t0 ≤ ts + timeout + c := by
          intro t0 h0
          cases rest with
          | nil => simp at h0
          | cons b rs =>
              obtain rfl : b = t0 := Option.some.inj (by simpa using h0)
              have h2 : b ≤ a + c ∧ gapsLeB c (b :: rs) = true := by
                simpa [gapsLeB] using hg
              omega
        exact ih t hg' hh' hf

/-- **C3** On every sweep tick at time `now`, exactly the pending entries
whose age `now - timestamp` strictly exceeds `requestTimeout` are rejected
with a `TimeoutError` and removed; every other entry stays, unchanged.
Consequently, over any tick schedule a surviving entry is one that was
within the timeout at every tick, and for a schedule whose consecutive
gaps are at most the sweep interval (with a first tick at most
`timeout + interval` after creation), the tick that rejects a
never-answered request falls strictly after `timeout` and no later than
`timeout + interval` past its creation time. -/
theorem cleanup_times_out_exactly_expired (s : SocketState)
    (reqs : List (String × OutboundRequest)) (now : Nat)
    (hreqs : s.pendingRequests = some reqs) :
    ((Socket.cleanup s now).1
        = { s with pendingRequests := some (reqs.filter
            (fun p => ¬ (now - p.2.timestamp > s.requestTimeout))) })
    ∧ ((Socket.cleanup s now).2
        = (reqs.filter (fun p => now - p.2.timestamp > s.requestTimeout)).filterMap
            (fun p => if p.2.settled then none
              else some (Action.settleReject p.1 .errTimeout)))
    ∧ (∀ ticks : List Nat,
        (sweepAll s ticks).pendingRequests
          = some (reqs.filter (fun p => ticks.all
              (fun t => ¬ (t - p.2.timestamp > s.requestTimeout)))))
    ∧ (∀ (ticks : List Nat) (ts t : Nat),
        gapsLeB s.sweepInterval ticks = true →
        (∀ t0, ticks.head? = some t0 → t0 ≤ ts + s.requestTimeout + s.sweepInterval) →
        firstExpiryTick ticks ts s.requestTimeout = some t →
        ts + s.requestTimeout < t ∧ t ≤ ts + s.requestTimeout + s.sweepInterval) := by
  refine ⟨?_, ?_, ?_, ?_⟩
  · simp [Socket.cleanup, hreqs]
  · simp [Socket.cleanup, hreqs]
  · intro ticks; exact (sweepAll_char ticks s reqs hreqs).1
  · intro ticks ts t hg hh hf
    exact firstExpiryTick_bound s.sweepInterval ts s.requestTimeout ticks t hg hh hf

/-- Witness for C3: two pending requests created at 0 and 2000 with a
60000 ms timeout; a tick at 61001 rejects exactly the first, and on the
schedule `[30000, 61001]` the rejecting tick 61001 lies in
`(60000, 120000]`. -/
theorem cleanup_times_out_exactly_expired_witness :
    (Socket.cleanup sweepSocket 61001).1.pendingRequests
      = some [("b", ⟨"b", 2000, false⟩)]
    ∧ (Socket.cleanup sweepSocket 61001).2 = [.settleReject "a" .errTimeout]
    ∧ (sweepAll sweepSocket [30000, 61001]).pendingRequests
      = some [("b", ⟨"b", 2000, false⟩)]
    ∧ firstExpiryTick [30000, 61001] 0 60000 = some 61001
    ∧ 0 + 60000 < 61001 ∧ 61001 ≤ 0 + 60000 + 60000 := by
  have h := cleanup_times_out_exactly_expired sweepSocket
      [("a", ⟨"a", 0, false⟩), ("b", ⟨"b", 2000, false⟩)] 61001 (by decide)
  have hb := h.2.2.2 [30000, 61001] 0 61001 (by decide)
      (by intro t0 h0; simp at h0; subst h0; decide) (by decide)
  refine ⟨?_, ?_, ?_, by decide, hb.1, hb.2⟩
  · rw [h.1]; decide
  · rw [h.2.1]; decide
  · rw [h.2.2.1 [30000, 61001]]; decide

/-- Witness for C9 (amended): an empty listener table, channel `"ch"`,
fresh id `"id1"`. -/
theorem transport_on_bookkeeping_and_delivery_witness :
    Transport.on { listeners := some [] } "ch" true "id1"
      = .ok ({ listeners := some [("id1", "ch")] }, "id1", [.inputOn "ch"])
    ∧ Transport.listenerDeliver [.str "evt", .str "a"] = [.str "a"]
    ∧ Transport.unsubscribe { listeners := some [("id1", "ch")] } "id1"
      = ({ listeners := some [] }, [.inputRemoveListener "ch"]) := by
  have h := transport_on_bookkeeping_and_delivery { listeners := some [] } []
      "ch" "id1" (by decide) rfl (by intro p hp; simp at hp)
  exact ⟨h.1, h.2.1 [.str "evt", .str "a"], h.2.2⟩

end IpcSocket
